import Mathlib

/-!
Verification of the appointment-booking backend (`src/main.py`) against its
specification. The FastAPI handlers are shallowly embedded: the MongoDB
collection `appointment` becomes a list of documents, each handler becomes a
pure function from the store and the request data to the resulting store and
an HTTP-style outcome (`Except Nat _`, the `Nat` being the status code), and
Python `datetime` values become a record of their fields.
-/

/-- Python `datetime.datetime`: the seven components plus the timezone info,
modelled as an optional UTC offset in minutes (`none` = naive). -/
structure PyDateTime where
  year : Nat
  month : Nat
  day : Nat
  hour : Nat
  minute : Nat
  second : Nat
  microsecond : Nat
  tzOffsetMinutes : Option Int
deriving DecidableEq, Repr

/-- `dt.replace(second=0, microsecond=0)` as used by both `create_appointment`
(src/main.py:169) and `update_appointment` (src/main.py:204). Note it leaves
`tzinfo` untouched. -/
def truncToMinute (dt : PyDateTime) : PyDateTime :=
  { dt with second := 0, microsecond := 0 }

/-- `to_utc_naive` (src/main.py:40-44). The module does
`from datetime import datetime`, so `datetime.timezone.utc` in the body is an
attribute lookup of `timezone` on the `datetime` *class*, which does not
exist: on timezone-aware input the function raises `AttributeError`, modelled
here as `none`. On naive input it returns the datetime unchanged. -/
def to_utc_naive (dt : PyDateTime) : Option PyDateTime :=
  match dt.tzOffsetMinutes with
  | some _ => none
  | none => some dt

/-- The characters BSON accepts in a hex ObjectId string. -/
def isHexDigitChar (c : Char) : Bool :=
  c.isDigit || (('a' ≤ c) && (c ≤ 'f')) || (('A' ≤ c) && (c ≤ 'F'))

/-- `bson.ObjectId(s)` succeeds exactly on 24-character hex strings; it
canonicalizes the hex to lower case (two ObjectIds built from the same hex in
different cases are equal). Modelled as a validated, lower-cased string. -/
def objectIdOf (s : String) : Option String :=
  if s.data.length = 24 && s.data.all isHexDigitChar then
    some ⟨s.data.map Char.toLower⟩
  else none

/-- A document of the `appointment` collection. MongoDB documents are
schemaless, so every field other than `_id` may hold null (`none`); the
create path always fills them in. `id` is the canonical hex string of the
ObjectId `_id`. -/
structure AppointmentDoc where
  id : String
  first_name : Option String
  last_name : Option String
  email : Option String
  phone : Option String
  datetime_iso : Option PyDateTime
  location : Option String
  status : Option String
  notes : Option String
  created_at : Option PyDateTime
  updated_at : Option PyDateTime
deriving DecidableEq, Repr

/-- The body of `POST /api/appointments` after pydantic validation
(`AppointmentCreate`, src/main.py:63-70). -/
structure AppointmentCreate where
  first_name : String
  last_name : String
  email : String
  phone : String
  datetime_iso : PyDateTime
  location : String
  notes : Option String
deriving DecidableEq, Repr

/-- One field of a PATCH body: pydantic's `model_dump(exclude_unset=True)`
distinguishes a field that was absent from the payload from one explicitly
set to null and from one set to a value. -/
inductive FieldUpdate (α : Type) where
  | absent
  | setNull
  | setVal (a : α)
deriving DecidableEq, Repr

/-- The body of `PATCH /api/appointments/{id}` after pydantic validation
(`AppointmentUpdate`, src/main.py:73-81): every field optional, each either
absent, explicitly null, or set. -/
structure AppointmentUpdate where
  first_name : FieldUpdate String
  last_name : FieldUpdate String
  email : FieldUpdate String
  phone : FieldUpdate String
  datetime_iso : FieldUpdate PyDateTime
  location : FieldUpdate String
  status : FieldUpdate String
  notes : FieldUpdate String
deriving DecidableEq, Repr

/-- The PATCH payload with every field absent. -/
def AppointmentUpdate.empty : AppointmentUpdate :=
  ⟨.absent, .absent, .absent, .absent, .absent, .absent, .absent, .absent⟩

/-- Everything after the first space of a string, as Python's
`s.split(" ", 1)[1]` computes it (total: empty when there is no space). -/
def afterFirstSpace : List Char → List Char
  | [] => []
  | c :: cs => if c = ' ' then cs else afterFirstSpace cs

/-- The token part of an `Authorization` header value. -/
def bearerToken (s : String) : String :=
  ⟨afterFirstSpace s.data⟩

/-- `authorization.lower().startswith("bearer ")` over the characters (header
values are ASCII, where `Char.toLower` agrees with Python's `str.lower`). -/
def bearerPrefixed (s : String) : Bool :=
  List.isPrefixOf "bearer ".data (s.data.map Char.toLower)

/-- `admin_required` (src/main.py:51-57): 401 when the header is missing,
empty (falsy) or does not start with `bearer ` case-insensitively; 403 when
the token after the first space differs from the configured secret; otherwise
the request proceeds. -/
def admin_required (secret : String) (authorization : Option String) : Except Nat Unit :=
  match authorization with
  | none => .error 401
  | some s =>
    if s = "" then .error 401
    else if !(bearerPrefixed s) then .error 401
    else if bearerToken s ≠ secret then .error 403
    else .ok ()

/-- The Mongo filter of the duplicate check in `create_appointment`
(src/main.py:172-175): exact equality on `datetime_iso` and `status $ne
"canceled"` (which also matches a null or missing status). -/
def slotTaken (dt : PyDateTime) (d : AppointmentDoc) : Bool :=
  d.datetime_iso == some dt && d.status != some "canceled"

/-- `create_appointment` (src/main.py:164-192). `newId` is the ObjectId the
store assigns, `now` the insertion timestamp. Returns the store after the
call and the outcome. The document built from `AppointmentSchema`
(`schemas.py`, not part of the sources) is modelled from the spec: status
defaults to `booked`, `created_at` is set by the store layer on insert;
`payload.location or "Mourenx"` maps the falsy empty string to the default.
This is the document inserted when the guard passes. -/
def createdDoc (payload : AppointmentCreate) (newId : String) (now : PyDateTime) :
    AppointmentDoc :=
  { id := newId
    first_name := some payload.first_name
    last_name := some payload.last_name
    email := some payload.email
    phone := some payload.phone
    datetime_iso := some (truncToMinute payload.datetime_iso)
    location := some (if payload.location = "" then "Mourenx" else payload.location)
    status := some "booked"
    notes := payload.notes
    created_at := some now
    updated_at := none }

def createAppointment (store : List AppointmentDoc) (payload : AppointmentCreate)
    (newId : String) (now : PyDateTime) :
    List AppointmentDoc × Except Nat AppointmentDoc :=
  match store.find? (slotTaken (truncToMinute payload.datetime_iso)) with
  | some _ => (store, .error 409)
  | none => (store ++ [createdDoc payload newId now], .ok (createdDoc payload newId now))

/-- Apply one `$set` entry to one document field. -/
def applyField {α : Type} (cur : Option α) : FieldUpdate α → Option α
  | .absent => cur
  | .setNull => none
  | .setVal a => some a

/-- The effect of the `$set` document built by `update_appointment`
(src/main.py:202-214) on one matching document: every field present in
`model_dump(exclude_unset=True)` is written (null included), `datetime_iso`
with the already-truncated value `dtU`, and `updated_at` is set fresh. -/
def applyUpdates (d : AppointmentDoc) (p : AppointmentUpdate)
    (dtU : FieldUpdate PyDateTime) (now : PyDateTime) : AppointmentDoc :=
  { d with
    first_name := applyField d.first_name p.first_name
    last_name := applyField d.last_name p.last_name
    email := applyField d.email p.email
    phone := applyField d.phone p.phone
    datetime_iso := applyField d.datetime_iso dtU
    location := applyField d.location p.location
    status := applyField d.status p.status
    notes := applyField d.notes p.notes
    updated_at := some now }

/-- `find_one_and_update({"_id": oid}, {"$set": ...}, return_document=True)`:
rewrite the first document whose `_id` matches and return it; `none` when no
document matches. -/
def findOneAndUpdate (f : AppointmentDoc → AppointmentDoc) (oid : String) :
    List AppointmentDoc → Option (List AppointmentDoc × AppointmentDoc)
  | [] => none
  | d :: ds =>
    if d.id = oid then some (f d :: ds, f d)
    else match findOneAndUpdate f oid ds with
      | none => none
      | some (ds', r) => some (d :: ds', r)

/-- The Mongo filter of the duplicate check in `update_appointment`
(src/main.py:206-210): same as the create one plus `_id $ne oid`. -/
def slotTakenByOther (oid : String) (dt : PyDateTime) (d : AppointmentDoc) : Bool :=
  d.id != oid && d.datetime_iso == some dt && d.status != some "canceled"

/-- The `updates["datetime_iso"]` entry after the truncation step: truncated
when present and not null, untouched (absent or null) otherwise. -/
def updateDtU (payload : AppointmentUpdate) : FieldUpdate PyDateTime :=
  match payload.datetime_iso with
  | .setVal dt => .setVal (truncToMinute dt)
  | u => u

/-- Whether the duplicate check of `update_appointment` fires: only when
`datetime_iso` is present and not null, against the truncated value. -/
def updateConflict (store : List AppointmentDoc) (oid : String)
    (payload : AppointmentUpdate) : Bool :=
  match updateDtU payload with
  | .setVal dt => (store.find? (slotTakenByOther oid dt)).isSome
  | _ => false

/-- `update_appointment` (src/main.py:195-225): 400 on a malformed ObjectId
string; when `datetime_iso` is present *and not null* it is truncated to the
minute and the duplicate check (excluding the record itself) may yield 409; a
present-but-null `datetime_iso` skips both; `updated_at := now` is added to
the `$set`; 404 when no document has the id. Returns the store after the call
and the outcome. -/
def updateAppointment (store : List AppointmentDoc) (appointment_id : String)
    (payload : AppointmentUpdate) (now : PyDateTime) :
    List AppointmentDoc × Except Nat AppointmentDoc :=
  match objectIdOf appointment_id with
  | none => (store, .error 400)
  | some oid =>
    if updateConflict store oid payload then (store, .error 409)
    else match findOneAndUpdate (fun d => applyUpdates d payload (updateDtU payload) now) oid store with
      | none => (store, .error 404)
      | some (store', doc) => (store', .ok doc)

/-- `delete_one({"_id": oid})`: remove the first document whose `_id`
matches; `none` when no document matches (`deleted_count == 0`). -/
def deleteOne (oid : String) : List AppointmentDoc → Option (List AppointmentDoc)
  | [] => none
  | d :: ds =>
    if d.id = oid then some ds
    else match deleteOne oid ds with
      | none => none
      | some ds' => some (d :: ds')

/-- `delete_appointment` (src/main.py:228-238): 400 on a malformed ObjectId
string, 404 when nothing was deleted, otherwise the document is removed and
the call acknowledges success. -/
def deleteAppointment (store : List AppointmentDoc) (appointment_id : String) :
    List AppointmentDoc × Except Nat Unit :=
  match objectIdOf appointment_id with
  | none => (store, .error 400)
  | some oid =>
    match deleteOne oid store with
    | none => (store, .error 404)
    | some store' => (store', .ok ())

/-- Lexicographic order on equal-length lists of naturals: how Python (and
BSON, on the instants the fields of a naive datetime denote) compares
datetimes. -/
def natLexLe : List Nat → List Nat → Bool
  | [], _ => true
  | _ :: _, [] => true
  | a :: as, b :: bs => if a < b then true else if b < a then false else natLexLe as bs

/-- The comparison key of a datetime. -/
def PyDateTime.fieldsList (t : PyDateTime) : List Nat :=
  [t.year, t.month, t.day, t.hour, t.minute, t.second, t.microsecond]

/-- The range filter of the availability query: `datetime_iso $gte start $lte
stop` (a null or missing datetime matches no range). -/
def inDayRange (y m d : Nat) (t : PyDateTime) : Bool :=
  natLexLe (PyDateTime.fieldsList ⟨y, m, d, 0, 0, 0, 0, none⟩) t.fieldsList &&
    natLexLe t.fieldsList (PyDateTime.fieldsList ⟨y, m, d, 23, 59, 59, 999999, none⟩)

def isLeapYear (y : Nat) : Bool :=
  (y % 4 = 0 && y % 100 ≠ 0) || y % 400 = 0

def daysInMonth (y m : Nat) : Nat :=
  if m = 2 then (if isLeapYear y then 29 else 28)
  else if m = 4 || m = 6 || m = 9 || m = 11 then 30
  else 31

def digitVal (c : Char) : Nat := c.toNat - 48

/-- The date strings accepted by `datetime.fromisoformat(date + "T00:00:00")`
in the documented `YYYY-MM-DD` format: four digits, dash, two digits, dash,
two digits, denoting a valid proleptic-Gregorian calendar date within
Python's year range (year ≥ 1). -/
def parseDateYMD (s : String) : Option (Nat × Nat × Nat) :=
  match s.toList with
  | [y1, y2, y3, y4, c1, m1, m2, c2, d1, d2] =>
    if (c1 = '-' && c2 = '-' &&
        [y1, y2, y3, y4, m1, m2, d1, d2].all Char.isDigit) then
      let y := ((digitVal y1 * 10 + digitVal y2) * 10 + digitVal y3) * 10 + digitVal y4
      let m := digitVal m1 * 10 + digitVal m2
      let d := digitVal d1 * 10 + digitVal d2
      if 1 ≤ y && 1 ≤ m && m ≤ 12 && 1 ≤ d && d ≤ daysInMonth y m then
        some (y, m, d)
      else none
    else none
  | _ => none

/-- `check_availability` (src/main.py:149-161): 400 when the date string does
not parse; otherwise the `datetime_iso` values of the documents with
`datetime_iso` in `[D 00:00:00, D 23:59:59.999999]` and `status $ne
"canceled"` (the handler then serializes each with `isoformat()`). -/
def checkAvailability (store : List AppointmentDoc) (date : String) :
    Except Nat (List PyDateTime) :=
  match parseDateYMD date with
  | none => .error 400
  | some (y, m, d) =>
    .ok ((store.filter (fun a =>
        (match a.datetime_iso with
         | some t => inDayRange y m d t
         | none => false) && a.status != some "canceled")).filterMap
      (fun a => a.datetime_iso))

/-- Bound on the clock fields that every Python `datetime` satisfies by
construction (hour ≤ 23, minute ≤ 59, second ≤ 59, microsecond ≤ 999999). -/
def validClock (t : PyDateTime) : Bool :=
  t.hour ≤ 23 && t.minute ≤ 59 && t.second ≤ 59 && t.microsecond ≤ 999999

/-! Concrete instances used to exercise the handlers. -/

def oidA : String := "aaaaaaaaaaaaaaaaaaaaaaaa"

def oidB : String := "bbbbbbbbbbbbbbbbbbbbbbbb"

def oidC : String := "cccccccccccccccccccccccc"

/-- 2024-05-01T10:00:00, the minute-truncated example slot of the spec. -/
def slotMay1 : PyDateTime := ⟨2024, 5, 1, 10, 0, 0, 0, none⟩

/-- A naive insertion timestamp used as `now`. -/
def t0 : PyDateTime := ⟨2024, 4, 30, 12, 0, 0, 0, none⟩

/-- The create payload of the spec's worked example, with seconds 30. -/
def anaPayload : AppointmentCreate :=
  ⟨"Ana", "B", "a@x.com", "0600000000", ⟨2024, 5, 1, 10, 0, 30, 0, none⟩, "Mourenx", none⟩

/-- The same payload with the datetime carrying a +02:00 offset. -/
def anaPayloadAware : AppointmentCreate :=
  { anaPayload with datetime_iso := ⟨2024, 5, 1, 10, 0, 30, 0, some 120⟩ }

/-- A booked document occupying `slotMay1` under id `oidA`. -/
def bookedDocA : AppointmentDoc :=
  ⟨oidA, some "Ana", some "B", some "a@x.com", some "0600000000", some slotMay1,
    some "Mourenx", some "booked", none, some t0, none⟩

/-- The same document, canceled. -/
def canceledDocA : AppointmentDoc := { bookedDocA with status := some "canceled" }

/-- A booked document at 2024-05-01T00:00 (midnight boundary) under `oidB`. -/
def midnightDocB : AppointmentDoc :=
  { bookedDocA with id := oidB, datetime_iso := some ⟨2024, 5, 1, 0, 0, 0, 0, none⟩ }

/-- A booked document at 2024-05-02T00:00 (next day's midnight) under `oidC`. -/
def nextDayDocC : AppointmentDoc :=
  { bookedDocA with id := oidC, datetime_iso := some ⟨2024, 5, 2, 0, 0, 0, 0, none⟩ }

/-- A PATCH payload moving the appointment to `slotMay1`. -/
def moveToMay1 : AppointmentUpdate :=
  { AppointmentUpdate.empty with datetime_iso := .setVal ⟨2024, 5, 1, 10, 0, 45, 0, none⟩ }

/-- A PATCH payload with `datetime_iso` explicitly null. -/
def nullDatetimeUpdate : AppointmentUpdate :=
  { AppointmentUpdate.empty with datetime_iso := .setNull }

/-- A PATCH payload renaming the client only. -/
def renameUpdate : AppointmentUpdate :=
  { AppointmentUpdate.empty with first_name := .setVal "Zoe" }

/-! Bridging lemmas between the executable filters and their propositional
readings. -/

theorem slotTaken_iff (dt : PyDateTime) (d : AppointmentDoc) :
    slotTaken dt d = true ↔ d.datetime_iso = some dt ∧ d.status ≠ some "canceled" := by
  simp [slotTaken]

theorem slotTakenByOther_iff (oid : String) (dt : PyDateTime) (d : AppointmentDoc) :
    slotTakenByOther oid dt d = true ↔
      d.id ≠ oid ∧ d.datetime_iso = some dt ∧ d.status ≠ some "canceled" := by
  simp [slotTakenByOther, and_assoc]

theorem findOneAndUpdate_eq_none (f : AppointmentDoc → AppointmentDoc) (oid : String)
    (l : List AppointmentDoc) :
    findOneAndUpdate f oid l = none ↔ ∀ a ∈ l, a.id ≠ oid := by
  induction l with
  | nil => simp [findOneAndUpdate]
  | cons d ds ih =>
    by_cases h : d.id = oid
    · simp [findOneAndUpdate, h]
    · cases hm : findOneAndUpdate f oid ds with
      | none =>
        simp only [findOneAndUpdate, if_neg h, hm]
        simp only [hm, true_iff] at ih
        refine ⟨fun _ a ha => ?_, fun _ => trivial⟩
        rcases List.mem_cons.mp ha with rfl | ha'
        · exact h
        · exact ih a ha'
      | some p =>
        simp only [findOneAndUpdate, if_neg h, hm]
        rw [iff_false_intro (by simp [hm] : ¬ findOneAndUpdate f oid ds = none)] at ih
        constructor
        · intro hc; simp at hc
        · intro hall
          exact absurd (fun a ha => hall a (List.mem_cons_of_mem d ha)) (by simpa using ih)

theorem findOneAndUpdate_some_mem (f : AppointmentDoc → AppointmentDoc) (oid : String) :
    ∀ {l l' : List AppointmentDoc} {r : AppointmentDoc},
      findOneAndUpdate f oid l = some (l', r) → ∃ d ∈ l, d.id = oid ∧ r = f d := by
  intro l
  induction l with
  | nil => intro l' r h; simp [findOneAndUpdate] at h
  | cons d ds ih =>
    intro l' r h
    by_cases hd : d.id = oid
    · simp only [findOneAndUpdate, if_pos hd, Option.some.injEq, Prod.mk.injEq] at h
      exact ⟨d, List.mem_cons_self d ds, hd, h.2.symm⟩
    · simp only [findOneAndUpdate, if_neg hd] at h
      cases hm : findOneAndUpdate f oid ds with
      | none => rw [hm] at h; exact absurd h (by simp)
      | some p =>
        rw [hm] at h
        obtain ⟨l'', r'⟩ := p
        simp only [Option.some.injEq, Prod.mk.injEq] at h
        obtain ⟨a, ha, haid, har⟩ := ih hm
        exact ⟨a, List.mem_cons_of_mem d ha, haid, h.2 ▸ har⟩

theorem deleteOne_eq_none (oid : String) (l : List AppointmentDoc) :
    deleteOne oid l = none ↔ ∀ a ∈ l, a.id ≠ oid := by
  induction l with
  | nil => simp [deleteOne]
  | cons d ds ih =>
    by_cases h : d.id = oid
    · simp [deleteOne, h]
    · cases hm : deleteOne oid ds with
      | none =>
        simp only [deleteOne, if_neg h, hm]
        simp only [hm, true_iff] at ih
        refine ⟨fun _ a ha => ?_, fun _ => trivial⟩
        rcases List.mem_cons.mp ha with rfl | ha'
        · exact h
        · exact ih a ha'
      | some ds' =>
        simp only [deleteOne, if_neg h, hm]
        rw [iff_false_intro (by simp [hm] : ¬ deleteOne oid ds = none)] at ih
        constructor
        · intro hc; simp at hc
        · intro hall
          exact absurd (fun a ha => hall a (List.mem_cons_of_mem d ha)) (by simpa using ih)

theorem deleteOne_mem_iff (oid : String) (l : List AppointmentDoc)
    (hnd : (l.map AppointmentDoc.id).Nodup) (a : AppointmentDoc)
    (ha : a ∈ l) (hid : a.id = oid) :
    ∃ l', deleteOne oid l = some l' ∧ ∀ b, b ∈ l' ↔ (b ∈ l ∧ b.id ≠ oid) := by
  induction l with
  | nil => cases ha
  | cons d ds ih =>
    rw [List.map_cons, List.nodup_cons] at hnd
    by_cases h : d.id = oid
    · refine ⟨ds, by simp [deleteOne, h], fun b => ?_⟩
      constructor
      · intro hb
        refine ⟨List.mem_cons_of_mem d hb, fun hbid => ?_⟩
        exact hnd.1 (h ▸ hbid ▸ List.mem_map_of_mem AppointmentDoc.id hb)
      · rintro ⟨hb, hbid⟩
        rcases List.mem_cons.mp hb with rfl | hb
        · exact absurd h hbid
        · exact hb
    · have ha' : a ∈ ds := by
        rcases List.mem_cons.mp ha with rfl | h'
        · exact absurd hid h
        · exact h'
      obtain ⟨ds', hds', hmem⟩ := ih hnd.2 ha'
      refine ⟨d :: ds', by simp [deleteOne, h, hds'], fun b => ?_⟩
      constructor
      · intro hb
        rcases List.mem_cons.mp hb with rfl | hb
        · exact ⟨List.mem_cons_self b ds, h⟩
        · obtain ⟨hb1, hb2⟩ := (hmem b).mp hb
          exact ⟨List.mem_cons_of_mem d hb1, hb2⟩
      · rintro ⟨hb, hbid⟩
        rcases List.mem_cons.mp hb with rfl | hb
        · exact List.mem_cons_self b ds'
        · exact List.mem_cons_of_mem d ((hmem b).mpr ⟨hb, hbid⟩)

/-- C7: admin gating. A missing header, an empty header or one without a
case-insensitive `bearer ` prefix yields 401; a bearer header whose token
differs from the secret yields 403; the exact secret lets the request
proceed. -/
theorem admin_required_spec (secret : String) (auth : Option String) :
    ((auth = none ∨ (∃ s, auth = some s ∧ bearerPrefixed s = false)) →
      admin_required secret auth = .error 401) ∧
    (∀ s, auth = some s → bearerPrefixed s = true →
      bearerToken s ≠ secret → admin_required secret auth = .error 403) ∧
    (∀ s, auth = some s → bearerPrefixed s = true →
      bearerToken s = secret → admin_required secret auth = .ok ()) := by
  refine ⟨?_, ?_, ?_⟩
  · rintro (rfl | ⟨s, rfl, hs⟩)
    · rfl
    · by_cases he : s = ""
      · simp [admin_required, he]
      · simp [admin_required, he, hs]
  · rintro s rfl hpre htok
    have he : s ≠ "" := by
      rintro rfl
      exact absurd hpre (by decide)
    simp [admin_required, he, hpre, htok]
  · rintro s rfl hpre htok
    have he : s ≠ "" := by
      rintro rfl
      exact absurd hpre (by decide)
    simp [admin_required, he, hpre, htok]

/-- C7 witness: the three gate outcomes at concrete headers. -/
theorem admin_required_spec_witness :
    admin_required "demo-admin-secret" (some "Basic x") = .error 401 ∧
    admin_required "demo-admin-secret" (some "Bearer wrong") = .error 403 ∧
    admin_required "demo-admin-secret" (some "Bearer demo-admin-secret") = .ok () :=
  ⟨(admin_required_spec "demo-admin-secret" (some "Basic x")).1
      (Or.inr ⟨"Basic x", rfl, by decide⟩),
    (admin_required_spec "demo-admin-secret" (some "Bearer wrong")).2.1
      "Bearer wrong" rfl (by decide) (by decide),
    (admin_required_spec "demo-admin-secret" (some "Bearer demo-admin-secret")).2.2
      "Bearer demo-admin-secret" rfl (by decide) (by decide)⟩

/-- C2: a create whose minute-truncated datetime is already held by a
non-canceled appointment fails with 409 and leaves the store untouched; a
create colliding with no such appointment succeeds and appends the new
document. -/
theorem createAppointment_conflict_guard (store : List AppointmentDoc)
    (p : AppointmentCreate) (newId : String) (now : PyDateTime) :
    ((∃ a ∈ store, a.datetime_iso = some (truncToMinute p.datetime_iso) ∧
        a.status ≠ some "canceled") →
      createAppointment store p newId now = (store, .error 409)) ∧
    ((∀ a ∈ store, a.datetime_iso = some (truncToMinute p.datetime_iso) →
        a.status = some "canceled") →
      ∃ doc, createAppointment store p newId now = (store ++ [doc], .ok doc)) := by
  constructor
  · rintro ⟨a, ha, hdt, hst⟩
    have hne : store.find? (slotTaken (truncToMinute p.datetime_iso)) ≠ none := by
      rw [Ne, List.find?_eq_none]
      push_neg
      exact ⟨a, ha, by rw [slotTaken_iff]; exact ⟨hdt, hst⟩⟩
    unfold createAppointment
    cases hf : store.find? (slotTaken (truncToMinute p.datetime_iso)) with
    | none => exact absurd hf hne
    | some b => rfl
  · intro hall
    have hf : store.find? (slotTaken (truncToMinute p.datetime_iso)) = none := by
      rw [List.find?_eq_none]
      intro a ha hsl
      rw [slotTaken_iff] at hsl
      exact hsl.2 (hall a ha hsl.1)
    unfold createAppointment
    rw [hf]
    exact ⟨_, rfl⟩

/-- C2 witness: with the 10:00 slot booked, a second create at 10:00:45 the
same day yields 409 without persisting; with an empty store it succeeds. -/
theorem createAppointment_conflict_guard_witness :
    createAppointment [bookedDocA] anaPayload oidB t0 = ([bookedDocA], .error 409) ∧
    ∃ doc, createAppointment [] anaPayload oidA t0 = ([doc], .ok doc) :=
  ⟨(createAppointment_conflict_guard [bookedDocA] anaPayload oidB t0).1
      ⟨bookedDocA, by decide, by decide, by decide⟩,
    (createAppointment_conflict_guard [] anaPayload oidA t0).2
      (by intro a ha; exact absurd ha (List.not_mem_nil a))⟩

/-- C5: canceled appointments never block a slot. If every appointment at the
target minute is canceled, neither the create nor a datetime-carrying update
can answer 409. -/
theorem canceled_never_blocks (store : List AppointmentDoc) (p : AppointmentCreate)
    (newId : String) (now : PyDateTime) (aid : String) (up : AppointmentUpdate)
    (dt : PyDateTime) :
    ((∀ a ∈ store, a.datetime_iso = some (truncToMinute p.datetime_iso) →
        a.status = some "canceled") →
      (createAppointment store p newId now).2 ≠ .error 409) ∧
    (up.datetime_iso = .setVal dt →
      (∀ a ∈ store, a.datetime_iso = some (truncToMinute dt) →
        a.status = some "canceled") →
      (updateAppointment store aid up now).2 ≠ .error 409) := by
  constructor
  · intro hall
    have hf : store.find? (slotTaken (truncToMinute p.datetime_iso)) = none := by
      rw [List.find?_eq_none]
      intro a ha hsl
      rw [slotTaken_iff] at hsl
      exact hsl.2 (hall a ha hsl.1)
    unfold createAppointment
    rw [hf]
    simp
  · intro hup hall
    cases ho : objectIdOf aid with
    | none => simp [updateAppointment, ho]
    | some oid =>
      have hfn : store.find? (slotTakenByOther oid (truncToMinute dt)) = none := by
        rw [List.find?_eq_none]
        intro a ha hsl
        rw [slotTakenByOther_iff] at hsl
        exact hsl.2.2 (hall a ha hsl.2.1)
      have hc : updateConflict store oid up = false := by
        simp only [updateConflict, updateDtU, hup, hfn, Option.isSome_none]
      cases hm : findOneAndUpdate
          (fun d => applyUpdates d up (updateDtU up) now) oid store with
      | none => simp [updateAppointment, ho, hc, hm]
      | some q => simp [updateAppointment, ho, hc, hm]

/-- C5 witness: with the 10:00 slot held only by a canceled appointment, a
create at 10:00:30 and an update moving `oidB` to 10:00:45 both avoid 409. -/
theorem canceled_never_blocks_witness :
    (createAppointment [canceledDocA] anaPayload oidB t0).2 ≠ .error 409 ∧
    (updateAppointment [canceledDocA, midnightDocB] oidB moveToMay1 t0).2 ≠ .error 409 :=
  ⟨(canceled_never_blocks [canceledDocA] anaPayload oidB t0 oidA
      AppointmentUpdate.empty slotMay1).1 (by decide),
    (canceled_never_blocks [canceledDocA, midnightDocB] anaPayload oidB t0 oidB
      moveToMay1 ⟨2024, 5, 1, 10, 0, 45, 0, none⟩).2 rfl (by decide)⟩

/-- C3: `truncToMinute` zeroes seconds and microseconds and keeps every other
component; the create handler behaves identically on a payload whose datetime
was already truncated (truncation precedes both the guard and the store
write); on success, both create and a datetime-carrying update store exactly
the truncated datetime. -/
theorem truncated_before_store (store : List AppointmentDoc) (p : AppointmentCreate)
    (newId : String) (now : PyDateTime) (aid : String) (up : AppointmentUpdate)
    (dt : PyDateTime) :
    ((truncToMinute dt).year = dt.year ∧ (truncToMinute dt).month = dt.month ∧
      (truncToMinute dt).day = dt.day ∧ (truncToMinute dt).hour = dt.hour ∧
      (truncToMinute dt).minute = dt.minute ∧ (truncToMinute dt).second = 0 ∧
      (truncToMinute dt).microsecond = 0) ∧
    (createAppointment store { p with datetime_iso := truncToMinute p.datetime_iso } newId now
      = createAppointment store p newId now) ∧
    (∀ st doc, createAppointment store p newId now = (st, .ok doc) →
      doc.datetime_iso = some (truncToMinute p.datetime_iso)) ∧
    (up.datetime_iso = .setVal dt →
      ∀ st doc, updateAppointment store aid up now = (st, .ok doc) →
        doc.datetime_iso = some (truncToMinute dt)) := by
  refine ⟨⟨rfl, rfl, rfl, rfl, rfl, rfl, rfl⟩, rfl, ?_, ?_⟩
  · intro st doc h
    cases hf : store.find? (slotTaken (truncToMinute p.datetime_iso)) with
    | some b =>
      simp only [createAppointment, hf] at h
      exact absurd (congrArg Prod.snd h) (by simp)
    | none =>
      simp only [createAppointment, hf] at h
      have hdoc : doc = createdDoc p newId now := by
        have := congrArg Prod.snd h
        simpa using this.symm
      rw [hdoc]
      rfl
  · intro hup st doc h
    cases ho : objectIdOf aid with
    | none =>
      simp only [updateAppointment, ho] at h
      exact absurd (congrArg Prod.snd h) (by simp)
    | some oid =>
      by_cases hc : updateConflict store oid up = true
      · simp only [updateAppointment, ho, hc, if_true] at h
        exact absurd (congrArg Prod.snd h) (by simp)
      · cases hm : findOneAndUpdate
            (fun d => applyUpdates d up (updateDtU up) now) oid store with
        | none =>
          simp only [updateAppointment, ho, hc, if_false, hm] at h
          exact absurd (congrArg Prod.snd h) (by simp)
        | some q =>
          simp only [updateAppointment, ho, hc, if_false, hm] at h
          obtain ⟨d, _, _, hr⟩ := findOneAndUpdate_some_mem _ _ hm
          have hdoc : doc = q.2 := by
            have := congrArg Prod.snd h
            simpa using this.symm
          rw [hdoc, hr]
          unfold applyUpdates
          simp only [updateDtU, hup, applyField]

/-- C3 witness: the spec's worked example. Creating with datetime
2024-05-01T10:00:30 stores exactly 2024-05-01T10:00:00. -/
theorem truncated_before_store_witness :
    (createdDoc anaPayload oidA t0).datetime_iso = some slotMay1 := by
  have h := (truncated_before_store [] anaPayload oidA t0 oidA
      AppointmentUpdate.empty slotMay1).2.2.1
    [createdDoc anaPayload oidA t0] (createdDoc anaPayload oidA t0) rfl
  exact h.trans (by decide)

/-- C4: an update that supplies a datetime fails with 409 (store untouched)
when a *different* non-canceled appointment holds the truncated slot, and
succeeds when every non-canceled holder of the slot is the record itself —
the `_id $ne oid` clause excludes the record from the search. -/
theorem update_self_exclusion (store : List AppointmentDoc) (aid oid : String)
    (up : AppointmentUpdate) (now dt : PyDateTime)
    (hup : up.datetime_iso = .setVal dt) (ho : objectIdOf aid = some oid) :
    ((∃ a ∈ store, a.id ≠ oid ∧ a.datetime_iso = some (truncToMinute dt) ∧
        a.status ≠ some "canceled") →
      updateAppointment store aid up now = (store, .error 409)) ∧
    ((∀ a ∈ store, a.datetime_iso = some (truncToMinute dt) →
        a.status ≠ some "canceled" → a.id = oid) →
      (∃ a ∈ store, a.id = oid) →
      ∃ st doc, updateAppointment store aid up now = (st, .ok doc)) := by
  constructor
  · rintro ⟨a, ha, hne, hdt, hst⟩
    have hcf : updateConflict store oid up = true := by
      simp only [updateConflict, updateDtU, hup]
      rw [Option.isSome_iff_ne_none, Ne, List.find?_eq_none]
      push_neg
      exact ⟨a, ha, by rw [slotTakenByOther_iff]; exact ⟨hne, hdt, hst⟩⟩
    simp only [updateAppointment, ho, hcf, if_true]
  · intro hall ⟨b, hb, hbid⟩
    have hcf : updateConflict store oid up = false := by
      have hfn : store.find? (slotTakenByOther oid (truncToMinute dt)) = none := by
        rw [List.find?_eq_none]
        intro a ha hsl
        rw [slotTakenByOther_iff] at hsl
        exact hsl.1 (hall a ha hsl.2.1 hsl.2.2)
      simp only [updateConflict, updateDtU, hup, hfn, Option.isSome_none]
    cases hm : findOneAndUpdate
        (fun d => applyUpdates d up (updateDtU up) now) oid store with
    | none =>
      rw [findOneAndUpdate_eq_none] at hm
      exact absurd hbid (hm b hb)
    | some q =>
      exact ⟨q.1, q.2, by simp [updateAppointment, ho, hcf, hm]⟩

/-- C4 witness: with `oidA` booked at 10:00 and `oidB` at midnight, moving
`oidB` to 10:00 yields 409; moving `oidA` to its own 10:00 slot succeeds. -/
theorem update_self_exclusion_witness :
    updateAppointment [bookedDocA, midnightDocB] oidB moveToMay1 t0 =
      ([bookedDocA, midnightDocB], .error 409) ∧
    ∃ st doc, updateAppointment [bookedDocA, midnightDocB] oidA moveToMay1 t0 =
      (st, .ok doc) :=
  ⟨(update_self_exclusion [bookedDocA, midnightDocB] oidB oidB moveToMay1 t0
      ⟨2024, 5, 1, 10, 0, 45, 0, none⟩ rfl (by decide)).1
      ⟨bookedDocA, by decide, by decide, by decide, by decide⟩,
    (update_self_exclusion [bookedDocA, midnightDocB] oidA oidA moveToMay1 t0
      ⟨2024, 5, 1, 10, 0, 45, 0, none⟩ rfl (by decide)).2
      (by decide) ⟨bookedDocA, by decide, by decide⟩⟩

/-- C8 counterexample: the claim "the update fails with 404 if no appointment
has the given identifier" is false as stated — the conflict check runs before
the existence check, so an update naming a valid but nonexistent id whose
datetime collides with another non-canceled appointment answers 409, not
404. -/
theorem update_404_shadowed_by_conflict :
    (∀ a ∈ [bookedDocA], a.id ≠ oidB) ∧
    objectIdOf oidB = some oidB ∧
    (updateAppointment [bookedDocA] oidB moveToMay1 t0).2 = .error 409 ∧
    (updateAppointment [bookedDocA] oidB moveToMay1 t0).2 ≠ .error 404 :=
  ⟨by decide, by decide, rfl, by intro h; rw [show (updateAppointment [bookedDocA]
      oidB moveToMay1 t0).2 = .error 409 from rfl] at h; exact absurd h (by simp)⟩

/-- C8 (amended): a malformed id yields 400; a valid id matching no document
yields 404 *provided the slot-conflict guard does not fire first*; and on
every successful update the returned document is the stored one with exactly
the supplied fields changed — fields absent from the payload, the id and
`created_at` keep their previous values, and `updated_at` is set to now. -/
theorem update_frame (store : List AppointmentDoc) (aid : String)
    (up : AppointmentUpdate) (now : PyDateTime) :
    (objectIdOf aid = none → updateAppointment store aid up now = (store, .error 400)) ∧
    (∀ oid, objectIdOf aid = some oid → (∀ a ∈ store, a.id ≠ oid) →
      updateConflict store oid up = false →
      updateAppointment store aid up now = (store, .error 404)) ∧
    (∀ st doc', updateAppointment store aid up now = (st, .ok doc') →
      ∃ doc ∈ store, doc'.id = doc.id ∧ doc'.created_at = doc.created_at ∧
        doc'.updated_at = some now ∧
        (up.first_name = .absent → doc'.first_name = doc.first_name) ∧
        (up.last_name = .absent → doc'.last_name = doc.last_name) ∧
        (up.email = .absent → doc'.email = doc.email) ∧
        (up.phone = .absent → doc'.phone = doc.phone) ∧
        (up.datetime_iso = .absent → doc'.datetime_iso = doc.datetime_iso) ∧
        (up.location = .absent → doc'.location = doc.location) ∧
        (up.status = .absent → doc'.status = doc.status) ∧
        (up.notes = .absent → doc'.notes = doc.notes)) := by
  refine ⟨?_, ?_, ?_⟩
  · intro h; simp [updateAppointment, h]
  · intro oid ho hnone hcf
    have hm : findOneAndUpdate
        (fun d => applyUpdates d up (updateDtU up) now) oid store = none :=
      (findOneAndUpdate_eq_none _ _ _).mpr hnone
    simp [updateAppointment, ho, hcf, hm]
  · intro st doc' h
    cases ho : objectIdOf aid with
    | none =>
      simp only [updateAppointment, ho] at h
      exact absurd (congrArg Prod.snd h) (by simp)
    | some oid =>
      by_cases hc : updateConflict store oid up = true
      · simp only [updateAppointment, ho, hc, if_true] at h
        exact absurd (congrArg Prod.snd h) (by simp)
      · cases hm : findOneAndUpdate
            (fun d => applyUpdates d up (updateDtU up) now) oid store with
        | none =>
          simp only [updateAppointment, ho, hc, if_false, hm] at h
          exact absurd (congrArg Prod.snd h) (by simp)
        | some q =>
          simp only [updateAppointment, ho, hc, if_false, hm] at h
          obtain ⟨d, hd, _, hr⟩ := findOneAndUpdate_some_mem _ _ hm
          have hdoc : doc' = q.2 := by
            have := congrArg Prod.snd h
            simpa using this.symm
          subst hdoc
          rw [hr]
          refine ⟨d, hd, rfl, rfl, rfl, ?_, ?_, ?_, ?_, ?_, ?_, ?_, ?_⟩ <;>
        intro habs <;>
        simp only [applyUpdates, updateDtU, habs, applyField]

/-- C8 witness: updating a nonexistent id (no conflict) yields 404 with the
store untouched; renaming `oidA` changes only `first_name` and
`updated_at`. -/
theorem update_frame_witness :
    updateAppointment [bookedDocA] oidB renameUpdate t0 = ([bookedDocA], .error 404) ∧
    ∃ doc ∈ [bookedDocA],
      ({ bookedDocA with first_name := some "Zoe", updated_at := some t0 }
          : AppointmentDoc).id = doc.id ∧
      ({ bookedDocA with first_name := some "Zoe", updated_at := some t0 }
          : AppointmentDoc).created_at = doc.created_at ∧
      ({ bookedDocA with first_name := some "Zoe", updated_at := some t0 }
          : AppointmentDoc).updated_at = some t0 ∧
      (renameUpdate.first_name = .absent →
        ({ bookedDocA with first_name := some "Zoe", updated_at := some t0 }
          : AppointmentDoc).first_name = doc.first_name) ∧
      (renameUpdate.last_name = .absent →
        ({ bookedDocA with first_name := some "Zoe", updated_at := some t0 }
          : AppointmentDoc).last_name = doc.last_name) ∧
      (renameUpdate.email = .absent →
        ({ bookedDocA with first_name := some "Zoe", updated_at := some t0 }
          : AppointmentDoc).email = doc.email) ∧
      (renameUpdate.phone = .absent →
        ({ bookedDocA with first_name := some "Zoe", updated_at := some t0 }
          : AppointmentDoc).phone = doc.phone) ∧
      (renameUpdate.datetime_iso = .absent →
        ({ bookedDocA with first_name := some "Zoe", updated_at := some t0 }
          : AppointmentDoc).datetime_iso = doc.datetime_iso) ∧
      (renameUpdate.location = .absent →
        ({ bookedDocA with first_name := some "Zoe", updated_at := some t0 }
          : AppointmentDoc).location = doc.location) ∧
      (renameUpdate.status = .absent →
        ({ bookedDocA with first_name := some "Zoe", updated_at := some t0 }
          : AppointmentDoc).status = doc.status) ∧
      (renameUpdate.notes = .absent →
        ({ bookedDocA with first_name := some "Zoe", updated_at := some t0 }
          : AppointmentDoc).notes = doc.notes) :=
  ⟨(update_frame [bookedDocA] oidB renameUpdate t0).2.1 oidB (by decide)
      (by decide) (by decide),
    (update_frame [bookedDocA] oidA renameUpdate t0).2.2
      [{ bookedDocA with first_name := some "Zoe", updated_at := some t0 }]
      { bookedDocA with first_name := some "Zoe", updated_at := some t0 } rfl⟩

/-- C9: delete removes exactly the document with the given identifier; a
valid id matching nothing yields 404 with the store untouched; a malformed id
yields 400 with the store untouched. -/
theorem delete_spec (store : List AppointmentDoc) (aid : String) :
    (objectIdOf aid = none → deleteAppointment store aid = (store, .error 400)) ∧
    (∀ oid, objectIdOf aid = some oid → (∀ a ∈ store, a.id ≠ oid) →
      deleteAppointment store aid = (store, .error 404)) ∧
    (∀ oid, objectIdOf aid = some oid → (store.map AppointmentDoc.id).Nodup →
      ∀ a, a ∈ store → a.id = oid →
      ∃ st, deleteAppointment store aid = (st, .ok ()) ∧
        ∀ b, b ∈ st ↔ (b ∈ store ∧ b.id ≠ oid)) := by
  refine ⟨?_, ?_, ?_⟩
  · intro h; simp [deleteAppointment, h]
  · intro oid ho hnone
    have hm : deleteOne oid store = none := (deleteOne_eq_none _ _).mpr hnone
    simp [deleteAppointment, ho, hm]
  · intro oid ho hnd a ha hid
    obtain ⟨st, hst, hmem⟩ := deleteOne_mem_iff oid store hnd a ha hid
    exact ⟨st, by simp [deleteAppointment, ho, hst], hmem⟩

/-- C9 witness: a malformed id and a valid-but-absent id fail 400 and 404
leaving the store unchanged; deleting `oidA` removes exactly that document. -/
theorem delete_spec_witness :
    deleteAppointment [bookedDocA] "zz" = ([bookedDocA], .error 400) ∧
    deleteAppointment [bookedDocA] oidB = ([bookedDocA], .error 404) ∧
    ∃ st, deleteAppointment [bookedDocA, midnightDocB] oidA = (st, .ok ()) ∧
      ∀ b, b ∈ st ↔ (b ∈ [bookedDocA, midnightDocB] ∧ b.id ≠ oidA) :=
  ⟨(delete_spec [bookedDocA] "zz").1 (by decide),
    (delete_spec [bookedDocA] oidB).2.1 oidB (by decide) (by decide),
    (delete_spec [bookedDocA, midnightDocB] oidA).2.2 oidA (by decide)
      (by decide) bookedDocA (by decide) (by decide)⟩

/-- C10: a PATCH whose `datetime_iso` is explicitly null bypasses both the
truncation and the slot-conflict guard (409 is impossible) and nulls the
stored datetime; an absent `datetime_iso` leaves the stored datetime of the
matched document unchanged. -/
theorem update_null_datetime (store : List AppointmentDoc) (aid oid : String)
    (up : AppointmentUpdate) (now : PyDateTime) (ho : objectIdOf aid = some oid) :
    (up.datetime_iso = .setNull →
      ((updateAppointment store aid up now).2 ≠ .error 409) ∧
      (∀ st doc', updateAppointment store aid up now = (st, .ok doc') →
        doc'.datetime_iso = none)) ∧
    (up.datetime_iso = .absent →
      ∀ st doc', updateAppointment store aid up now = (st, .ok doc') →
        ∃ doc ∈ store, doc'.datetime_iso = doc.datetime_iso) := by
  constructor
  · intro hup
    have hcf : updateConflict store oid up = false := by
      simp only [updateConflict, updateDtU, hup]
    constructor
    · cases hm : findOneAndUpdate
          (fun d => applyUpdates d up (updateDtU up) now) oid store with
      | none => simp [updateAppointment, ho, hcf, hm]
      | some q => simp [updateAppointment, ho, hcf, hm]
    · intro st doc' h
      simp only [updateAppointment, ho, hcf, if_false] at h
      cases hm : findOneAndUpdate
          (fun d => applyUpdates d up (updateDtU up) now) oid store with
      | none =>
        rw [hm] at h
        exact absurd (congrArg Prod.snd h) (by simp)
      | some q =>
        rw [hm] at h
        obtain ⟨d, _, _, hr⟩ := findOneAndUpdate_some_mem _ _ hm
        have hdoc : doc' = q.2 := by
          have := congrArg Prod.snd h
          simpa using this.symm
        subst hdoc
        rw [hr]
        simp only [applyUpdates, updateDtU, hup, applyField]
  · intro hup st doc' h
    cases ho2 : objectIdOf aid with
    | none => rw [ho] at ho2; cases ho2
    | some oid2 =>
      by_cases hc : updateConflict store oid2 up = true
      · simp only [updateAppointment, ho2, hc, if_true] at h
        exact absurd (congrArg Prod.snd h) (by simp)
      · cases hm : findOneAndUpdate
            (fun d => applyUpdates d up (updateDtU up) now) oid2 store with
        | none =>
          simp only [updateAppointment, ho2, hc, if_false, hm] at h
          exact absurd (congrArg Prod.snd h) (by simp)
        | some q =>
          simp only [updateAppointment, ho2, hc, if_false, hm] at h
          obtain ⟨d, hd, _, hr⟩ := findOneAndUpdate_some_mem _ _ hm
          have hdoc : doc' = q.2 := by
            have := congrArg Prod.snd h
            simpa using this.symm
          subst hdoc
          rw [hr]
          exact ⟨d, hd, by simp only [applyUpdates, updateDtU, hup, applyField]⟩

/-- C10 witness: with the slot occupied by another appointment, nulling
`oidB`'s datetime still avoids 409 and stores null; a rename leaves the
datetime as it was. -/
theorem update_null_datetime_witness :
    ((updateAppointment [bookedDocA, midnightDocB] oidB nullDatetimeUpdate t0).2 ≠
      .error 409) ∧
    ({ bookedDocA with datetime_iso := none, updated_at := some t0 }
        : AppointmentDoc).datetime_iso = none ∧
    ∃ doc ∈ [bookedDocA],
      ({ bookedDocA with first_name := some "Zoe", updated_at := some t0 }
          : AppointmentDoc).datetime_iso = doc.datetime_iso :=
  ⟨((update_null_datetime [bookedDocA, midnightDocB] oidB oidB
        nullDatetimeUpdate t0 (by decide)).1 rfl).1,
    ((update_null_datetime [bookedDocA] oidA oidA nullDatetimeUpdate t0
        (by decide)).1 rfl).2
      [{ bookedDocA with datetime_iso := none, updated_at := some t0 }]
      { bookedDocA with datetime_iso := none, updated_at := some t0 } rfl,
    (update_null_datetime [bookedDocA] oidA oidA renameUpdate t0
        (by decide)).2 rfl
      [{ bookedDocA with first_name := some "Zoe", updated_at := some t0 }]
      { bookedDocA with first_name := some "Zoe", updated_at := some t0 } rfl⟩

/-- C1 (refuted): a create whose datetime carries a +02:00 offset stores the
datetime with the offset intact (neither converted to UTC nor stripped), and
`to_utc_naive` — the helper meant to do the normalization, which the handlers
never call — raises `AttributeError` (modelled `none`) on every aware
datetime instead of converting it. -/
theorem create_keeps_offset_unnormalized :
    (createAppointment [] anaPayloadAware oidA t0).2 =
      .ok (createdDoc anaPayloadAware oidA t0) ∧
    (createdDoc anaPayloadAware oidA t0).datetime_iso =
      some ⟨2024, 5, 1, 10, 0, 0, 0, some 120⟩ ∧
    some (120 : Int) ≠ (none : Option Int) ∧
    to_utc_naive ⟨2024, 5, 1, 10, 0, 0, 0, some 120⟩ = none :=
  ⟨rfl, rfl, by decide, rfl⟩

theorem natLexLe_nil (l : List Nat) : natLexLe [] l = true := rfl

theorem natLexLe_cons (a b : Nat) (as bs : List Nat) :
    natLexLe (a :: as) (b :: bs) = true ↔
      (a < b ∨ (a = b ∧ natLexLe as bs = true)) := by
  simp only [natLexLe]
  by_cases h1 : a < b
  · simp [h1]
  · by_cases h2 : b < a
    · rw [if_neg h1, if_pos h2]
      constructor
      · intro hc; exact absurd hc (by decide)
      · rintro (hlt | ⟨rfl, _⟩) <;> omega
    · have hab : a = b := by omega
      subst hab
      rw [if_neg h1, if_neg h2]
      simp

/-- The day range `[D 00:00:00.000000, D 23:59:59.999999]` holds exactly the
(clock-valid) datetimes whose calendar date is `D`: midnight of `D` is the
lower endpoint, and midnight of the next day already differs in the date
components. -/
theorem inDayRange_iff (y m d : Nat) (t : PyDateTime)
    (hv : validClock t = true) :
    inDayRange y m d t = true ↔ (t.year = y ∧ t.month = m ∧ t.day = d) := by
  have hb : ((t.hour ≤ 23 ∧ t.minute ≤ 59) ∧ t.second ≤ 59) ∧ t.microsecond ≤ 999999 := by
    simpa [validClock, Bool.and_eq_true] using hv
  obtain ⟨⟨⟨h1, h2⟩, h3⟩, h4⟩ := hb
  simp only [inDayRange, PyDateTime.fieldsList, Bool.and_eq_true, natLexLe_cons,
    natLexLe_nil, and_true]
  omega

/-- C6: on a parseable date the availability query returns exactly the stored
datetimes of the non-canceled appointments whose datetime falls on that
calendar day — midnight of the day included, the next day's midnight
excluded — and on an unparseable date string it fails with 400. The
clock-validity hypothesis records the field bounds every Python datetime has
by construction. -/
theorem checkAvailability_spec (store : List AppointmentDoc) (s : String) :
    (parseDateYMD s = none → checkAvailability store s = .error 400) ∧
    (∀ y m d, parseDateYMD s = some (y, m, d) →
      (∀ a ∈ store, Option.all validClock a.datetime_iso = true) →
      ∃ occ, checkAvailability store s = .ok occ ∧
        ∀ t, t ∈ occ ↔ ∃ a ∈ store, a.datetime_iso = some t ∧
          a.status ≠ some "canceled" ∧
          t.year = y ∧ t.month = m ∧ t.day = d) := by
  constructor
  · intro h; simp [checkAvailability, h]
  · intro y m d hp hval
    have hck : checkAvailability store s =
        .ok ((store.filter (fun a =>
          (match a.datetime_iso with
           | some t => inDayRange y m d t
           | none => false) && a.status != some "canceled")).filterMap
          (fun a => a.datetime_iso)) := by
      simp [checkAvailability, hp]
    refine ⟨_, hck, fun t => ?_⟩
    simp only [List.mem_filterMap, List.mem_filter]
    constructor
    · rintro ⟨a, ⟨ha, hpa⟩, hat⟩
      rw [hat, Bool.and_eq_true] at hpa
      have hvt : validClock t = true := by
        have := hval a ha
        rw [hat] at this
        simpa [Option.all] using this
      have hr := (inDayRange_iff y m d t hvt).mp hpa.1
      exact ⟨a, ha, hat, by simpa using hpa.2, hr.1, hr.2.1, hr.2.2⟩
    · rintro ⟨a, ha, hat, hst, hy, hm, hd⟩
      refine ⟨a, ⟨ha, ?_⟩, hat⟩
      rw [hat, Bool.and_eq_true]
      have hvt : validClock t = true := by
        have := hval a ha
        rw [hat] at this
        simpa [Option.all] using this
      exact ⟨(inDayRange_iff y m d t hvt).mpr ⟨hy, hm, hd⟩, by simpa using hst⟩

/-- C6 witness: over a store holding a 10:00 booking, a canceled 10:00
appointment, a booking at the day's midnight and one at the next day's
midnight, the query for 2024-05-01 answers exactly the non-canceled
datetimes of that day; an invalid date fails with 400. -/
theorem checkAvailability_spec_witness :
    checkAvailability [] "2024-99-99" = .error 400 ∧
    ∃ occ, checkAvailability [bookedDocA, canceledDocA, midnightDocB, nextDayDocC]
        "2024-05-01" = .ok occ ∧
      ∀ t, t ∈ occ ↔ ∃ a ∈ [bookedDocA, canceledDocA, midnightDocB, nextDayDocC],
        a.datetime_iso = some t ∧ a.status ≠ some "canceled" ∧
        t.year = 2024 ∧ t.month = 5 ∧ t.day = 1 :=
  ⟨(checkAvailability_spec [] "2024-99-99").1 (by decide),
    (checkAvailability_spec [bookedDocA, canceledDocA, midnightDocB, nextDayDocC]
        "2024-05-01").2 2024 5 1 (by decide) (by decide)⟩
